import Mathlib

/-!
Verification of the compETAG digest/reconciliation core (`src/comp_etag/core.py`)
against its natural-language specification.

Shallow embedding conventions:
* bytes are `Nat` values `< 256`, byte strings are `List Nat`;
* the local filesystem is a partial map `FS` from filename to content;
* the remote object store is a map `S3Env` from bucket name to its listed objects;
* Python exceptions are the explicit `PyErr` values of an `Except` result;
* MD5 is implemented concretely (RFC 1321) over `Nat` with explicit `% 2^32`,
  so concrete digests evaluate inside the kernel.
-/

set_option maxRecDepth 100000

/-- Byte strings. -/
abbrev Bytes := List Nat

/-- 2^32, the word modulus of MD5. -/
def M32 : Nat := 4294967296

/-- Left-rotation of a 32-bit word (input assumed `< 2^32`). -/
def rotl32 (x s : Nat) : Nat := ((x <<< s) ||| (x >>> (32 - s))) % M32

/-- The 64 MD5 sine-derived round constants (RFC 1321). -/
def md5K : List Nat :=
  [3614090360, 3905402710, 606105819, 3250441966, 4118548399, 1200080426,
   2821735955, 4249261313, 1770035416, 2336552879, 4294925233, 2304563134,
   1804603682, 4254626195, 2792965006, 1236535329, 4129170786, 3225465664,
   643717713, 3921069994, 3593408605, 38016083, 3634488961, 3889429448,
   568446438, 3275163606, 4107603335, 1163531501, 2850285829, 4243563512,
   1735328473, 2368359562, 4294588738, 2272392833, 1839030562, 4259657740,
   2763975236, 1272893353, 4139469664, 3200236656, 681279174, 3936430074,
   3572445317, 76029189, 3654602809, 3873151461, 530742520, 3299628645,
   4096336452, 1126891415, 2878612391, 4237533241, 1700485571, 2399980690,
   4293915773, 2240044497, 1873313359, 4264355552, 2734768916, 1309151649,
   4149444226, 3174756917, 718787259, 3951481745]

/-- The 64 MD5 per-round shift amounts (RFC 1321). -/
def md5S : List Nat :=
  [7, 12, 17, 22, 7, 12, 17, 22, 7, 12, 17, 22, 7, 12, 17, 22,
   5, 9, 14, 20, 5, 9, 14, 20, 5, 9, 14, 20, 5, 9, 14, 20,
   4, 11, 16, 23, 4, 11, 16, 23, 4, 11, 16, 23, 4, 11, 16, 23,
   6, 10, 15, 21, 6, 10, 15, 21, 6, 10, 15, 21, 6, 10, 15, 21]

/-- The MD5 round mixing function for round `i` on words `b c d`. -/
def md5F (i b c d : Nat) : Nat :=
  if i < 16 then (b &&& c) ||| ((b ^^^ 4294967295) &&& d)
  else if i < 32 then (d &&& b) ||| ((d ^^^ 4294967295) &&& c)
  else if i < 48 then b ^^^ c ^^^ d
  else c ^^^ (b ||| (d ^^^ 4294967295))

/-- The MD5 message-word index used in round `i`. -/
def md5G (i : Nat) : Nat :=
  if i < 16 then i
  else if i < 32 then (5 * i + 1) % 16
  else if i < 48 then (3 * i + 5) % 16
  else (7 * i) % 16

/-- One MD5 round: state `(a, b, c, d)` and round index `i`, over schedule `X`. -/
def md5Step (X : List Nat) (st : Nat × Nat × Nat × Nat) (i : Nat) :
    Nat × Nat × Nat × Nat :=
  let a := st.1
  let b := st.2.1
  let c := st.2.2.1
  let d := st.2.2.2
  let tmp := (a + md5F i b c d + md5K.getD i 0 + X.getD (md5G i) 0) % M32
  let nb := (b + rotl32 tmp (md5S.getD i 0)) % M32
  (d, nb, b, c)

/-- Process one padded 64-byte block, updating the MD5 chaining state. -/
def md5ProcessBlock (st : Nat × Nat × Nat × Nat) (block : Bytes) :
    Nat × Nat × Nat × Nat :=
  let X := (List.range 16).map fun j =>
    block.getD (4 * j) 0 + 256 * block.getD (4 * j + 1) 0 +
      65536 * block.getD (4 * j + 2) 0 + 16777216 * block.getD (4 * j + 3) 0
  let r := (List.range 64).foldl (md5Step X) st
  ((st.1 + r.1) % M32, (st.2.1 + r.2.1) % M32,
   (st.2.2.1 + r.2.2.1) % M32, (st.2.2.2 + r.2.2.2) % M32)

/-- Fuel-indexed splitting of a list into chunks of `cs` elements; `fuel ≥ length`
and `cs ≥ 1` make the fuel irrelevant. -/
def chunksAux (cs : Nat) : Nat → Bytes → List Bytes
  | _, [] => []
  | 0, _ :: _ => []
  | fuel + 1, x :: xs => (x :: xs).take cs :: chunksAux cs fuel ((x :: xs).drop cs)

/-- Split a byte string into consecutive chunks of `cs` bytes, the last possibly
shorter (for `cs ≥ 1`). -/
def chunks (cs : Nat) (l : Bytes) : List Bytes := chunksAux cs l.length l

/-- MD5 padding: append `0x80`, zero bytes, and the 64-bit little-endian bit
length. The zero count `(119 - len % 64) % 64` is `(56 - (len + 1)) mod 64`,
bringing the length to 56 mod 64 before the 8 length bytes. -/
def md5Pad (msg : Bytes) : Bytes :=
  let len := msg.length
  let bitLen := (8 * len) % (2 ^ 64)
  let zeros := (119 - len % 64) % 64
  msg ++ [128] ++ List.replicate zeros 0 ++
    (List.range 8).map fun j => (bitLen >>> (8 * j)) % 256

/-- MD5 of a byte string, as the 16-byte raw digest (RFC 1321). -/
def md5Bytes (msg : Bytes) : Bytes :=
  let st := (chunks 64 (md5Pad msg)).foldl md5ProcessBlock
    (1732584193, 4023233417, 2562383102, 271733878)
  [st.1, st.2.1, st.2.2.1, st.2.2.2].foldr
    (fun w acc => (w % 256) :: (w >>> 8 % 256) :: (w >>> 16 % 256) :: (w >>> 24 % 256) :: acc) []

/-- Lowercase hex character for a value `< 16`. -/
def hexChar (n : Nat) : Char :=
  if n < 10 then Char.ofNat (48 + n) else Char.ofNat (87 + n)

/-- Lowercase hexadecimal rendering of a byte string (Python `hexdigest`). -/
def hexdigest (bytes : Bytes) : String :=
  String.mk (bytes.foldr (fun b acc => hexChar (b / 16) :: hexChar (b % 16) :: acc) [])

/-! ## External world model -/

/-- The local filesystem: a partial map from filename to byte content.
`none` means the file cannot be opened (missing or unreadable). -/
abbrev FS := String → Option Bytes

/-- Python exceptions observable from `core.py`. -/
inductive PyErr where
  /-- `IOError` raised by `open`/`read` on the named file. -/
  | ioError (filename : String)
  /-- `NameError` from reading a never-assigned local variable. -/
  | nameError
  /-- `numpy.AxisError` (a `ValueError`) from `np.insert(axis=1)` on an empty batch. -/
  | axisError
  /-- `AssertionError` from `retrieve_s3uri_etag`'s argument checks. -/
  | assertionError
  /-- Remote object metadata lookup failed (boto3 404). -/
  | notFound (key : String)
deriving DecidableEq

/-- A remote object as listed under a bucket: its key and its provider-reported
ETag in wire form (possibly quote-wrapped). -/
structure S3Object where
  key : String
  e_tag : String
deriving DecidableEq

/-- The remote store: bucket name to its objects, in listing order. -/
abbrev S3Env := String → List S3Object

/-- Python `str.strip(c)` on a character list: remove every leading and every
trailing occurrence of `c`. -/
def pyStrip (c : Char) (l : List Char) : List Char :=
  ((l.dropWhile (· == c)).reverse.dropWhile (· == c)).reverse

/-- The double-quote character. -/
def quoteChar : Char := Char.ofNat 34

/-- Python `s.strip('"')`. -/
def pyStripQuotes (s : String) : String := String.mk (pyStrip quoteChar s.data)

/-! ## `core.py` local-digest functions -/

/-- `md5_checksum(filename)`: the MD5 hex digest of the whole file content.
(The source reads in 1 MiB buffers feeding one incremental hash; hashing the
concatenation of the buffers is the same as hashing the content.) -/
def md5_checksum (fs : FS) (filename : String) : Except PyErr String :=
  match fs filename with
  | none => .error (.ioError filename)
  | some content => .ok (hexdigest (md5Bytes content))

/-- The chunk sequence produced by `iter(lambda: f.read(chunk_size), b"")`:
`read(0)` returns `b""` at once (no chunks); `read(n)` for negative `n` reads the
whole remaining content (one chunk unless the file is empty); positive `n` reads
consecutive `n`-byte chunks. -/
def readChunks (content : Bytes) (chunk_size : Int) : List Bytes :=
  if chunk_size ≤ 0 then
    if chunk_size = 0 then []
    else if content.isEmpty then [] else [content]
  else chunks chunk_size.toNat content

/-- `etag_checksum(filename, chunk_size=8*1024**2)`: hash every chunk, then hash
the concatenation of the raw chunk hashes; append `-<count>` only when there is
more than one chunk. -/
def etag_checksum (fs : FS) (filename : String) (chunk_size : Int := 8388608) :
    Except PyErr String :=
  match fs filename with
  | none => .error (.ioError filename)
  | some content =>
    let md5s := (readChunks content chunk_size).map md5Bytes
    let m := md5Bytes md5s.flatten
    .ok (if md5s.length > 1 then hexdigest m ++ "-" ++ toString md5s.length
         else hexdigest m)

/-- `etag_compare(filename, etag, mode="etag", chunk_size=8*1024**2)`: strip
quotes from the expected digest, compute the digest selected by `mode`, and
return `(matched, computed, expected)`. A mode other than `"etag"`/`"md5"`
leaves the local variable `a` unassigned, so `if et == a` raises `NameError`. -/
def etag_compare (fs : FS) (filename : String) (etag : String)
    (mode : String := "etag") (chunk_size : Int := 8388608) :
    Except PyErr (Bool × String × String) :=
  let et := pyStripQuotes etag
  if mode = "etag" then
    match etag_checksum fs filename chunk_size with
    | .error er => .error er
    | .ok a => .ok (et == a, a, et)
  else if mode = "md5" then
    match md5_checksum fs filename with
    | .error er => .error er
    | .ok a => .ok (et == a, a, et)
  else .error .nameError

/-! ## `core.py` remote-resolver functions -/

/-- `get_objects(bucket, key, pattern)`: keys under `bucket` with prefix `key`
that the pattern matches. Without a pattern the hit is the key itself, which in
Python is falsy exactly when it is the empty string. A compiled regular
expression is modelled as its match predicate `String → Bool`. -/
def get_objects (env : S3Env) (bucket ky : String)
    (pat : Option (String → Bool)) : List String :=
  (env bucket).filterMap fun obj =>
    if ky.isPrefixOf obj.key then
      match pat with
      | none => if obj.key == "" then none else some obj.key
      | some p => if p obj.key then some obj.key else none
    else none

/-- `get_object_etag(bucket, key)`: the quote-stripped reported ETag of one
object, with its key; fails when the key is absent from the bucket. -/
def get_object_etag (env : S3Env) (bucket ky : String) :
    Except PyErr (String × String) :=
  match (env bucket).find? (fun o => o.key == ky) with
  | none => .error (.notFound ky)
  | some o => .ok (pyStripQuotes o.e_tag, o.key)

/-- Python iteration over the value returned by `get_etags_from_s3uri`: the
empty string stands for the empty sequence. -/
def iterPairs : Sum (List (String × String)) String → List (String × String)
  | .inl l => l
  | .inr _ => []

/-- `get_etags_from_s3uri(bucket, key, pattern)`: ETag/key pairs of all matching
objects; the literal `""` when there are none (`return et if et else ""`). -/
def get_etags_from_s3uri (env : S3Env) (bucket ky : String)
    (pat : Option (String → Bool)) :
    Except PyErr (Sum (List (String × String)) String) := do
  let k := get_objects env bucket ky pat
  let et ← k.mapM fun i => get_object_etag env bucket i
  return if et.isEmpty then .inr ("") else .inl et

/-- `retrieve_s3uri_etag(bucket, key, pattern)`: assert both lists nonempty,
then concatenate `get_etags_from_s3uri` over the bucket × key cross-product.
(The source lifts a single string to a one-element list; the embedding takes the
list form directly.) -/
def retrieve_s3uri_etag (env : S3Env) (bucket ky : List String)
    (pat : Option (String → Bool)) : Except PyErr (List (String × String)) :=
  if bucket.isEmpty then .error .assertionError
  else if ky.isEmpty then .error .assertionError
  else
    bucket.foldlM (fun acc B =>
      ky.foldlM (fun acc2 K => do
        let d ← get_etags_from_s3uri env B K pat
        return acc2 ++ iterPairs d) acc) []

/-! ## `core.py` batch reconciliation -/

/-- Result of one `check_hashes` call: the printed lines, the exception that
escaped (if any), and effect counters instrumenting how many local file opens
and remote-resolver invocations were performed. -/
structure RunResult where
  lines : List String
  err : Option PyErr
  fileReads : Nat
  resolverCalls : Nat
deriving DecidableEq

/-- Python `needle in hay` on strings: substring occurrence. -/
def isSubOf (needle hay : String) : Bool := decide (needle.data <:+: hay.data)

/-- `re.compile("|".join(fragments))`, for metacharacter-free fragments: the key
matches when some fragment occurs in it as a substring; the empty alternation
(or an empty fragment) matches everything. -/
def compilePattern (fragments : List String) : String → Bool :=
  fun k => fragments.isEmpty || fragments.any fun i => isSubOf i k

/-- The pattern used by the `"s3uri"` branch: the explicit one when supplied,
otherwise the alternation of all entry identifiers. -/
def s3Pattern (pat : Option (String → Bool)) (hashes : List (String × String)) :
    Option (String → Bool) :=
  match pat with
  | some p => some p
  | none => some (compilePattern (hashes.map (·.2)))

/-- Order-preserving deduplication, modelling `set(...)` iteration. (CPython
set iteration order is unspecified; first-occurrence order is one refinement.) -/
def dedupFirst (l : List String) : List String :=
  l.foldl (fun acc x => if acc.contains x then acc else acc ++ [x]) []

/-- The local-mode loop of `check_hashes`: `zip` pulls the lazily mapped
`etag_compare` result for an entry before the loop body prints anything for it,
so a raised `IOError` aborts the run with no line for the failing entry; a
successful entry prints its progress line and its tab-separated outcome line. -/
def localLoop (fs : FS) (mode : String) (cso : Option Int) :
    List (String × String) → RunResult
  | [] => ⟨[], none, 0, 0⟩
  | (e, i) :: rest =>
    let r := match cso with
      | some c => etag_compare fs i e mode c
      | none => etag_compare fs i e mode
    match r with
    | .error er => ⟨[], some er, 1, 0⟩
    | .ok (val, a, _) =>
      let progress := "Comparing " ++ mode ++ "s for " ++ i ++ " ..."
      let line :=
        if val then String.intercalate ("\t") [e, i, "Ok!"]
        else String.intercalate ("\t") [e, i, "-->", a, "NO MATCH!"]
      let rr := localLoop fs mode cso rest
      ⟨progress :: line :: rr.lines, rr.err, 1 + rr.fileReads, rr.resolverCalls⟩

/-- The report lines the `"s3uri"` branch prints for one entry, given the
resolved ETag/key pairs: one comparison line per distinct matching ETag, or a
not-found line when no resolved key contains the identifier. -/
def s3Lines (data : List (String × String)) (e i : String) : List String :=
  let ets := dedupFirst ((data.filter fun nm => isSubOf i nm.2).map (·.1))
  if ets.isEmpty then [i ++ " not found!"]
  else ets.map fun et =>
    if et == e then String.intercalate ("\t") [e, i, "Ok!"]
    else String.intercalate ("\t") [e, i, "-->", et, "NO MATCH!"]

/-- `check_hashes(hashes, mode, chunk_size, bucket, key, pattern)`.
Local modes dispatch through numpy parallel arrays: with a chunk size the
entries are compared with it; with `chunk_size=None` the stringified `None`
makes `astype(int)` raise `ValueError`, and the fallback maps `etag_compare`
without a chunk size (its 8 MiB default); an empty batch makes `np.insert`
raise `AxisError` in both attempts, which escapes. The `"s3uri"` branch
resolves every entry with one `retrieve_s3uri_etag` call; any other mode prints
one diagnostic line and returns. -/
def check_hashes (fs : FS) (env : S3Env) (hashes : List (String × String))
    (mode : String) (chunk_size : Option Int) (bucket ky : List String)
    (pat : Option (String → Bool)) : RunResult :=
  if mode = "etag" ∨ mode = "md5" then
    if hashes.isEmpty then ⟨[], some .axisError, 0, 0⟩
    else localLoop fs mode chunk_size hashes
  else if mode = "s3uri" then
    match retrieve_s3uri_etag env bucket ky (s3Pattern pat hashes) with
    | .error er => ⟨[], some er, 0, 1⟩
    | .ok data => ⟨hashes.foldr (fun ei acc => s3Lines data ei.1 ei.2 ++ acc) [],
                   none, 0, 1⟩
  else ⟨["Mode \x27" ++ mode ++ "\x27 not recognized!"], none, 0, 0⟩

/-! ## Concrete fixtures used by witnesses and counterexamples -/

/-- A filesystem whose every file is the single byte `0x61` (`"a"`). -/
def fs1 : FS := fun _ => some [97]

/-- A filesystem whose every file is empty. -/
def fsEmpty : FS := fun _ => some []

/-- A filesystem where only `"there"` is readable. -/
def fsC2 : FS := fun n => if n = "there" then some [97] else none

/-- A 10-byte content used with chunk size 4. -/
def content10 : Bytes := List.range 10

/-- A filesystem whose every file is `content10`. -/
def fs10 : FS := fun _ => some content10

/-- A remote store with no objects in any bucket. -/
def env0 : S3Env := fun _ => []

/-! ## Helper lemmas -/

theorem chunksAux_length (cs : Nat) (hcs : 0 < cs) :
    ∀ (fuel : Nat) (l : Bytes), l.length ≤ fuel →
      (chunksAux cs fuel l).length = (l.length + cs - 1) / cs := by
  intro fuel
  induction fuel with
  | zero =>
    intro l hl
    have h0 : l = [] := List.eq_nil_of_length_eq_zero (Nat.le_zero.mp hl)
    subst h0
    simp only [chunksAux, List.length_nil]
    rw [Nat.div_eq_of_lt (by omega)]
  | succ n ih =>
    intro l hl
    cases l with
    | nil =>
      simp only [chunksAux, List.length_nil]
      rw [Nat.div_eq_of_lt (by omega)]
    | cons x xs =>
      have hle : ((x :: xs).drop cs).length ≤ n := by
        rw [List.length_drop]
        simp only [List.length_cons]
        simp only [List.length_cons] at hl
        omega
      simp only [chunksAux, List.length_cons]
      rw [ih _ hle, List.length_drop]
      simp only [List.length_cons]
      rcases le_or_lt (xs.length + 1) cs with h | h
      · have e1 : xs.length + 1 - cs = 0 := by omega
        rw [e1, Nat.div_eq_of_lt (by omega)]
        have e3 : (xs.length + 1 + cs - 1) / cs = 1 := by
          apply Nat.div_eq_of_lt_le <;> omega
        omega
      · have e1 : xs.length + 1 - cs + cs - 1 = xs.length := by omega
        have e2 : xs.length + 1 + cs - 1 = xs.length + cs := by omega
        rw [e1, e2, Nat.add_div_right _ hcs]

theorem chunks_length (cs : Nat) (hcs : 0 < cs) (l : Bytes) :
    (chunks cs l).length = (l.length + cs - 1) / cs :=
  chunksAux_length cs hcs l.length l le_rfl

theorem readChunks_pos (content : Bytes) (cs : Nat) (hcs : 0 < cs) :
    readChunks content (cs : Int) = chunks cs content := by
  unfold readChunks
  have h1 : ¬((cs : Int) ≤ 0) := by
    simp only [not_le]
    exact_mod_cast hcs
  rw [if_neg h1]
  norm_num

theorem readChunks_nil (cs : Int) : readChunks [] cs = [] := by
  unfold readChunks
  split
  · split
    · rfl
    · rfl
  · rfl

theorem dropWhile_append_single (c : Char) (m : List Char) :
    (m ++ [c]).dropWhile (· == c) =
      if (m.dropWhile (· == c)).isEmpty then []
      else m.dropWhile (· == c) ++ [c] := by
  induction m with
  | nil => simp [List.dropWhile]
  | cons x xs ih =>
    simp only [List.cons_append, List.dropWhile_cons]
    by_cases hx : (x == c) = true
    · rw [if_pos hx, ih, if_pos hx]
    · rw [if_neg hx, if_neg hx]
      simp [List.isEmpty]

theorem pyStrip_cons (c : Char) (m : List Char) :
    pyStrip c (c :: m) = pyStrip c m := by
  unfold pyStrip
  rw [List.dropWhile_cons, if_pos (by simp)]

theorem pyStrip_append (c : Char) (m : List Char) :
    pyStrip c (m ++ [c]) = pyStrip c m := by
  unfold pyStrip
  rw [dropWhile_append_single]
  by_cases h : (m.dropWhile (· == c)).isEmpty
  · rw [if_pos h]
    have h2 : m.dropWhile (· == c) = [] := by
      cases he : m.dropWhile (· == c)
      · rfl
      · rw [he] at h; simp [List.isEmpty] at h
    rw [h2]
  · rw [if_neg h, List.reverse_append]
    simp only [List.reverse_cons, List.reverse_nil, List.nil_append,
      List.singleton_append]
    rw [List.dropWhile_cons, if_pos (by simp)]

theorem pyStripQuotes_wrap (d : String) :
    pyStripQuotes ("\x22" ++ d ++ "\x22") = pyStripQuotes d := by
  obtain ⟨l⟩ := d
  show String.mk (pyStrip quoteChar (quoteChar :: (l ++ [quoteChar]))) =
    String.mk (pyStrip quoteChar l)
  rw [pyStrip_cons, pyStrip_append]

theorem md5_checksum_some (fs : FS) (f : String) (content : Bytes)
    (hf : fs f = some content) :
    md5_checksum fs f = .ok (hexdigest (md5Bytes content)) := by
  unfold md5_checksum
  rw [hf]

theorem md5_checksum_none (fs : FS) (f : String) (hf : fs f = none) :
    md5_checksum fs f = .error (.ioError f) := by
  unfold md5_checksum
  rw [hf]

theorem etag_checksum_some (fs : FS) (f : String) (content : Bytes) (cs : Int)
    (hf : fs f = some content) :
    etag_checksum fs f cs =
      .ok (if ((readChunks content cs).map md5Bytes).length > 1
           then hexdigest (md5Bytes ((readChunks content cs).map md5Bytes).flatten)
             ++ "-" ++ toString ((readChunks content cs).map md5Bytes).length
           else hexdigest (md5Bytes ((readChunks content cs).map md5Bytes).flatten)) := by
  unfold etag_checksum
  rw [hf]

theorem etag_checksum_none (fs : FS) (f : String) (cs : Int) (hf : fs f = none) :
    etag_checksum fs f cs = .error (.ioError f) := by
  unfold etag_checksum
  rw [hf]

theorem etag_compare_ioError (fs : FS) (i e mode : String) (cs : Int)
    (hm : mode = "etag" ∨ mode = "md5") (hf : fs i = none) :
    etag_compare fs i e mode cs = .error (.ioError i) := by
  rcases hm with h | h <;> subst h <;> unfold etag_compare
  · rw [if_pos rfl, etag_checksum_none fs i cs hf]
  · rw [if_neg (by decide), if_pos rfl, md5_checksum_none fs i hf]

theorem localLoop_error (fs : FS) (mode : String) (cso : Option Int)
    (e i : String) (rest : List (String × String)) (er : PyErr)
    (hcmp : (match cso with
             | some c => etag_compare fs i e mode c
             | none => etag_compare fs i e mode) = .error er) :
    localLoop fs mode cso ((e, i) :: rest) = ⟨[], some er, 1, 0⟩ := by
  unfold localLoop
  rw [hcmp]

theorem etag_compare_ok (fs : FS) (i e mode : String) (cs : Int) (content : Bytes)
    (hm : mode = "etag" ∨ mode = "md5") (hf : fs i = some content) :
    ∃ v, etag_compare fs i e mode cs = .ok v := by
  rcases hm with h | h <;> subst h <;> unfold etag_compare
  · rw [if_pos rfl, etag_checksum_some fs i content cs hf]
    exact ⟨_, rfl⟩
  · rw [if_neg (by decide), if_pos rfl, md5_checksum_some fs i content hf]
    exact ⟨_, rfl⟩

theorem localLoop_append_error (fs : FS) (mode : String) (cso : Option Int)
    (hm : mode = "etag" ∨ mode = "md5") :
    ∀ (pre : List (String × String)) (e i : String)
      (rest : List (String × String)),
      (∀ ei ∈ pre, fs ei.2 ≠ none) → fs i = none →
      localLoop fs mode cso (pre ++ (e, i) :: rest) =
        ⟨(localLoop fs mode cso pre).lines, some (.ioError i),
         pre.length + 1, 0⟩ := by
  intro pre
  induction pre with
  | nil =>
    intro e i rest _ hf
    rw [List.nil_append, localLoop_error fs mode cso e i rest (.ioError i) ?_]
    · rfl
    · cases cso with
      | some c => exact etag_compare_ioError fs i e mode c hm hf
      | none => exact etag_compare_ioError fs i e mode 8388608 hm hf
  | cons y pre ih =>
    intro e i rest hpre hf
    obtain ⟨ey, iy⟩ := y
    obtain ⟨cy, hcy⟩ : ∃ cy, fs iy = some cy := by
      cases hfy : fs iy with
      | none => exact absurd hfy (hpre (ey, iy) (List.mem_cons_self _ _))
      | some cy => exact ⟨cy, rfl⟩
    obtain ⟨⟨val, a, et⟩, hv⟩ : ∃ v, (match cso with
        | some c => etag_compare fs iy ey mode c
        | none => etag_compare fs iy ey mode) = .ok v := by
      cases cso with
      | some c => exact etag_compare_ok fs iy ey mode c cy hm hcy
      | none => exact etag_compare_ok fs iy ey mode 8388608 cy hm hcy
    rw [List.cons_append]
    simp only [localLoop]
    rw [hv, ih e i rest (fun ei hei => hpre ei (List.mem_cons_of_mem _ hei)) hf]
    simp only [RunResult.mk.injEq, List.length_cons, and_true, true_and]
    omega

theorem localLoop_none_default (fs : FS) (mode : String) (l : List (String × String)) :
    localLoop fs mode none l = localLoop fs mode (some 8388608) l := by
  induction l with
  | nil => rfl
  | cons x rest ih =>
    obtain ⟨e, i⟩ := x
    simp only [localLoop]
    rw [ih]

theorem mem_s3foldr (data : List (String × String))
    (hashes : List (String × String)) (e i : String) (hmem : (e, i) ∈ hashes)
    (x : String) (hx : x ∈ s3Lines data e i) :
    x ∈ hashes.foldr (fun ei acc => s3Lines data ei.1 ei.2 ++ acc) [] := by
  induction hashes with
  | nil => cases hmem
  | cons y rest ih =>
    rcases List.mem_cons.mp hmem with h | h
    · rw [List.foldr_cons, ← h]
      exact List.mem_append_left _ hx
    · exact List.mem_append_right _ (ih h)

/-! ## Claims -/

/-- C1 (code bug): the spec's single-part equivalence
`etag_checksum(f, chunkSize) == md5_checksum(f)` for files of size ≤ chunkSize
fails on the code: for the one-byte file `"a"` the chunked digest is the hex of
the hash of the single chunk's *raw hash* hashed again, not of the chunk's
content, so it differs from the whole-file digest. -/
theorem C1_single_chunk_divergence :
    md5_checksum fs1 ("f") = .ok ("0cc175b9c0f1b6a831c399e269772661") ∧
    etag_checksum fs1 ("f") 1024 = .ok ("b6ff9a06b7e20bcb2858c5b8ff744aea") ∧
    etag_checksum fs1 ("f") 1024 ≠ md5_checksum fs1 ("f") := by
  refine ⟨rfl, rfl, ?_⟩
  intro h
  rw [show etag_checksum fs1 ("f") 1024 = .ok ("b6ff9a06b7e20bcb2858c5b8ff744aea") from rfl,
      show md5_checksum fs1 ("f") = .ok ("0cc175b9c0f1b6a831c399e269772661") from rfl] at h
  exact absurd (Except.ok.inj h) (by decide)

/-- C2 (counterexample): with the batch `[("d1","gone"), ("d2","there")]` where
`"gone"` is unreadable and `"there"` is readable, `check_hashes` in a local mode
does not convert the `IOError` into a failing report line: it emits no line at
all and aborts before processing `"there"`. -/
theorem C2_counterexample :
    check_hashes fsC2 env0 [("d1", "gone"), ("d2", "there")] ("md5") none [] [] none =
      ⟨[], some (.ioError ("gone")), 1, 0⟩ := rfl

/-- C2 (amended): a per-entry read failure in a local mode is not caught at the
reconciliation boundary, wherever it occurs in the batch: the entries before
the failing one are processed normally and print their report lines, then the
`IOError` escapes `check_hashes`; the failing entry produces no report line and
no remaining entry of the batch is processed. -/
theorem C2_read_failure_aborts (fs : FS) (env : S3Env)
    (pre : List (String × String)) (e i : String)
    (rest : List (String × String)) (mode : String) (cso : Option Int)
    (b k : List String) (p : Option (String → Bool))
    (hm : mode = "etag" ∨ mode = "md5")
    (hpre : ∀ ei ∈ pre, fs ei.2 ≠ none) (hf : fs i = none) :
    check_hashes fs env (pre ++ (e, i) :: rest) mode cso b k p =
      ⟨(localLoop fs mode cso pre).lines, some (.ioError i),
       pre.length + 1, 0⟩ := by
  unfold check_hashes
  rw [if_pos hm]
  have hne : (pre ++ (e, i) :: rest).isEmpty = false := by cases pre <;> rfl
  rw [hne, if_neg Bool.false_ne_true]
  exact localLoop_append_error fs mode cso hm pre e i rest hpre hf

/-- C2 (witness for the amended theorem): the unreadable second entry `"gone"`
of a three-entry `"md5"`-mode batch aborts after the first entry printed its
two lines, with the third entry pending; the second conjunct evaluates those
prefix lines. -/
theorem C2_read_failure_aborts_witness :
    check_hashes fsC2 env0 [("d0", "there"), ("d1", "gone"), ("d2", "there")]
        ("md5") none [] [] none =
      ⟨(localLoop fsC2 ("md5") none [("d0", "there")]).lines,
       some (.ioError ("gone")), 2, 0⟩ ∧
    (localLoop fsC2 ("md5") none [("d0", "there")]).lines =
      ["Comparing md5s for there ...",
       "d0\tthere\t-->\t0cc175b9c0f1b6a831c399e269772661\tNO MATCH!"] :=
  ⟨C2_read_failure_aborts fsC2 env0 [("d0", "there")] ("d1") ("gone")
     [("d2", "there")] ("md5") none [] [] none (Or.inr rfl) (by decide) rfl,
   rfl⟩

/-- C3 (counterexample): with `chunk_size` absent and mode `"etag"`, the
local-mode branch does not fall back to whole-file digesting: for the one-byte
file `"a"` whose whole-file digest is the expected value, the emitted line is a
mismatch against the default-chunk-size chunked digest, not a match. -/
theorem C3_counterexample :
    check_hashes fs1 env0 [("0cc175b9c0f1b6a831c399e269772661", "f")]
        ("etag") none [] [] none =
      ⟨["Comparing etags for f ...",
        "0cc175b9c0f1b6a831c399e269772661\tf\t-->\tb6ff9a06b7e20bcb2858c5b8ff744aea\tNO MATCH!"],
       none, 1, 0⟩ ∧
    md5_checksum fs1 ("f") = .ok ("0cc175b9c0f1b6a831c399e269772661") :=
  ⟨rfl, rfl⟩

/-- C3 (amended): when `chunk_size` is absent (`None`), the local-mode branch
does not fail on the missing chunk size: it behaves exactly as with the
comparator's default chunk size of 8 MiB, so whole-file digesting happens only
for mode `"md5"`, while mode `"etag"` chunk-digests with 8 MiB chunks. -/
theorem C3_absent_chunk_size_default (fs : FS) (env : S3Env)
    (hashes : List (String × String)) (mode : String) (b k : List String)
    (p : Option (String → Bool)) :
    check_hashes fs env hashes mode none b k p =
      check_hashes fs env hashes mode (some 8388608) b k p := by
  unfold check_hashes
  by_cases h1 : mode = "etag" ∨ mode = "md5"
  · rw [if_pos h1, if_pos h1]
    cases hashes with
    | nil => rfl
    | cons x rest => exact localLoop_none_default fs mode (x :: rest)
  · rw [if_neg h1, if_neg h1]

/-- C4 (counterexample): `etag_checksum` does not fail for a non-positive chunk
size: with `chunk_size = 0` on the one-byte file `"a"` it returns the digest of
the empty byte string. -/
theorem C4_counterexample :
    etag_checksum fs1 ("f") 0 = .ok ("d41d8cd98f00b204e9800998ecf8427e") := rfl

/-- C4 (amended): `etag_checksum` performs no chunk-size validation and returns
a digest for every `chunk_size ≤ 0`: with `chunk_size = 0` the read loop yields
no chunks, giving the hash of the empty byte string regardless of the content;
with `chunk_size < 0` the whole content is read as a single chunk, giving the
hex of the hash of that chunk's raw hash; no error is raised. -/
theorem C4_no_validation (fs : FS) (f : String) (content : Bytes) (cs : Int)
    (hf : fs f = some content) (hcs : cs ≤ 0) :
    etag_checksum fs f cs =
      .ok (if cs = 0 ∨ content = [] then hexdigest (md5Bytes [])
           else hexdigest (md5Bytes (md5Bytes content))) := by
  rw [etag_checksum_some fs f content cs hf]
  by_cases h0 : cs = 0
  · have hrc : readChunks content cs = [] := by
      unfold readChunks
      rw [if_pos hcs, if_pos h0]
    rw [hrc]
    simp [h0]
  · by_cases hc : content = []
    · subst hc
      rw [readChunks_nil]
      simp [h0]
    · have hrc : readChunks content cs = [content] := by
        unfold readChunks
        rw [if_pos hcs, if_neg h0, if_neg (by simp [hc])]
      rw [hrc]
      simp [h0, hc]

/-- C4 (witness for the amended theorem): a negative chunk size on the one-byte
file `"a"` still returns a digest. -/
theorem C4_no_validation_witness :
    etag_checksum fs1 ("f") (-1) =
      .ok (if (-1 : Int) = 0 ∨ ([97] : Bytes) = [] then hexdigest (md5Bytes [])
           else hexdigest (md5Bytes (md5Bytes [97]))) :=
  C4_no_validation fs1 ("f") [97] (-1) rfl (by decide)

/-- C5: for a file strictly larger than the (positive) chunk size,
`etag_checksum` returns the hex of the hash of the concatenation of the raw
per-chunk hashes in chunk order, suffixed with `-<n>` where
`n = ceil(size / chunkSize)`. -/
theorem C5_multipart_suffix (fs : FS) (f : String) (content : Bytes) (cs : Nat)
    (hf : fs f = some content) (h1 : 0 < cs) (h2 : cs < content.length) :
    etag_checksum fs f (cs : Int) =
      .ok (hexdigest (md5Bytes (((chunks cs content).map md5Bytes).flatten))
        ++ "-" ++ toString ((content.length + cs - 1) / cs)) := by
  rw [etag_checksum_some fs f content _ hf, readChunks_pos content cs h1]
  have hN : ((chunks cs content).map md5Bytes).length =
      (content.length + cs - 1) / cs := by
    rw [List.length_map, chunks_length cs h1]
  have h2' : ((chunks cs content).map md5Bytes).length > 1 := by
    rw [hN]
    have hmul : 2 * cs ≤ content.length + cs - 1 := by omega
    calc 1 < 2 := by omega
      _ ≤ (content.length + cs - 1) / cs := (Nat.le_div_iff_mul_le h1).mpr hmul
  rw [if_pos h2', hN]

/-- C5 (witness): a 10-byte file with chunk size 4 gets the multipart form with
part count `ceil(10/4) = 3`. -/
theorem C5_multipart_suffix_witness :
    etag_checksum fs10 ("f") ((4 : Nat) : Int) =
      .ok (hexdigest (md5Bytes (((chunks 4 content10).map md5Bytes).flatten))
        ++ "-" ++ toString ((content10.length + 4 - 1) / 4)) :=
  C5_multipart_suffix fs10 ("f") content10 4 rfl (by decide) (by decide)

/-- C6: for a zero-byte source, `md5_checksum` returns the hash of the empty
byte string, and `etag_checksum` with any positive chunk size returns the same
hash of the empty byte string with no part-count suffix. -/
theorem C6_empty_source (fs : FS) (f : String) (hf : fs f = some []) (cs : Int)
    (hcs : 0 < cs) :
    md5_checksum fs f = .ok ("d41d8cd98f00b204e9800998ecf8427e") ∧
    etag_checksum fs f cs = .ok ("d41d8cd98f00b204e9800998ecf8427e") ∧
    hexdigest (md5Bytes []) = "d41d8cd98f00b204e9800998ecf8427e" := by
  refine ⟨?_, ?_, rfl⟩
  · rw [md5_checksum_some fs f [] hf]
    rfl
  · rw [etag_checksum_some fs f [] cs hf, readChunks_nil]
    rfl

/-- C6 (witness): the all-files-empty filesystem with chunk size 1. -/
theorem C6_empty_source_witness :
    md5_checksum fsEmpty ("f") = .ok ("d41d8cd98f00b204e9800998ecf8427e") ∧
    etag_checksum fsEmpty ("f") 1 = .ok ("d41d8cd98f00b204e9800998ecf8427e") ∧
    hexdigest (md5Bytes []) = "d41d8cd98f00b204e9800998ecf8427e" :=
  C6_empty_source fsEmpty ("f") rfl 1 (by decide)

/-- C7: `etag_compare` strips surrounding double quotes from the expected
digest before comparing, so a quote-wrapped expected digest yields exactly the
same outcome as the bare one, for every filesystem, identifier, mode, and chunk
size. -/
theorem C7_quote_invariance (fs : FS) (f d mode : String) (cs : Int) :
    etag_compare fs f ("\x22" ++ d ++ "\x22") mode cs =
      etag_compare fs f d mode cs := by
  unfold etag_compare
  rw [pyStripQuotes_wrap]

/-- C8: when no remote key matches, `get_etags_from_s3uri` returns an empty
sequence (the falsy `""`) rather than raising, and `check_hashes` in `"s3uri"`
mode reports `"<identifier> not found!"` for every entry whose identifier is a
substring of no resolved key. -/
theorem C8_not_found :
    (∀ (env : S3Env) (b ky : String) (pat : Option (String → Bool)),
        get_objects env b ky pat = [] →
        ∃ r, get_etags_from_s3uri env b ky pat = .ok r ∧ iterPairs r = []) ∧
    (∀ (fs : FS) (env : S3Env) (hashes : List (String × String))
        (b k : List String) (p : Option (String → Bool))
        (data : List (String × String)) (e i : String),
        retrieve_s3uri_etag env b k (s3Pattern p hashes) = .ok data →
        (e, i) ∈ hashes →
        data.filter (fun nm => isSubOf i nm.2) = [] →
        (i ++ " not found!") ∈
          (check_hashes fs env hashes ("s3uri") none b k p).lines) := by
  constructor
  · intro env b ky pat h
    refine ⟨.inr (""), ?_, rfl⟩
    unfold get_etags_from_s3uri
    rw [h]
    rfl
  · intro fs env hashes b k p data e i hret hmem hfil
    have hx : (i ++ " not found!") ∈ s3Lines data e i := by
      unfold s3Lines
      rw [hfil]
      simp [dedupFirst]
    unfold check_hashes
    rw [if_neg (by decide), if_pos rfl, hret]
    exact mem_s3foldr data hashes e i hmem _ hx

/-- C8 (witness): an empty bucket yields the empty sequence from
`get_etags_from_s3uri`, and the single entry `("d","x")` is reported as
`"x not found!"` by remote-mode `check_hashes`. -/
theorem C8_not_found_witness :
    (∃ r, get_etags_from_s3uri env0 ("b") ("k") none = .ok r ∧ iterPairs r = []) ∧
    ("x" ++ " not found!") ∈
      (check_hashes fs1 env0 [("d", "x")] ("s3uri") none ["b"] ["k"] none).lines :=
  ⟨C8_not_found.1 env0 ("b") ("k") none rfl,
   C8_not_found.2 fs1 env0 [("d", "x")] ["b"] ["k"] none [] ("d") ("x") rfl
     (by decide) rfl⟩

/-- C9: an unrecognized mode makes `check_hashes` emit exactly one diagnostic
line naming the mode, perform zero file reads and zero resolver calls, and
return without an escaping exception, for every batch, filesystem, and remote
store. -/
theorem C9_unrecognized_mode (fs : FS) (env : S3Env)
    (hashes : List (String × String)) (mode : String) (cso : Option Int)
    (b k : List String) (p : Option (String → Bool))
    (h1 : mode ≠ "etag") (h2 : mode ≠ "md5") (h3 : mode ≠ "s3uri") :
    check_hashes fs env hashes mode cso b k p =
      ⟨["Mode \x27" ++ mode ++ "\x27 not recognized!"], none, 0, 0⟩ := by
  unfold check_hashes
  rw [if_neg (by simp [h1, h2]), if_neg h3]

/-- C9 (witness): mode `"bogus"` on a nonempty batch. -/
theorem C9_unrecognized_mode_witness :
    check_hashes fs1 env0 [("d", "x")] ("bogus") none [] [] none =
      ⟨["Mode \x27" ++ "bogus" ++ "\x27 not recognized!"], none, 0, 0⟩ :=
  C9_unrecognized_mode fs1 env0 [("d", "x")] ("bogus") none [] [] none
    (by decide) (by decide) (by decide)

/-- C10: calling `etag_compare` with a mode that is neither `"etag"` nor
`"md5"` leaves the digest variable unassigned, so the comparison raises
`NameError` instead of returning an outcome triple. -/
theorem C10_unbound_mode_nameError (fs : FS) (f etag mode : String) (cs : Int)
    (h1 : mode ≠ "etag") (h2 : mode ≠ "md5") :
    etag_compare fs f etag mode cs = .error .nameError := by
  unfold etag_compare
  rw [if_neg h1, if_neg h2]

/-- C10 (witness): mode `"bogus"`. -/
theorem C10_unbound_mode_nameError_witness :
    etag_compare fs1 ("f") ("d") ("bogus") 8388608 = .error .nameError :=
  C10_unbound_mode_nameError fs1 ("f") ("d") ("bogus") 8388608 (by decide) (by decide)
